import Mathlib

/-!
Verification of the auth/readiness core of the ai-virtual-assistant backend.

The Python sources embedded here are:
  * `backend/api/llamastack.py`   — service-account token reader, bearer-header
    builder, forwarded-identity header extraction, client constructors;
  * `backend/routes/validate.py`  — the `/validate` token-introspection endpoint
    and the `/validate/test` peer-authentication self-test;
  * `backend/main.py`             — the startup orchestrator
    (`after_serving_starts`) and the readiness gate (`wait_for_service_ready`);
  * `backend/agents.py`           — the `ExistingAgent` / `ExistingReActAgent`
    adapter constructors.

Network and file I/O are abstracted as explicit outcome inputs (which response,
if any, the HTTP call produced; the state of the mounted credential file); the
control flow that the Python functions perform on those outcomes is translated
line by line.  Python dictionaries appear as association lists, `None` as
`Option.none`, raised exceptions as explicit error constructors.
-/

namespace AVA

/-! ## Python-semantics helpers -/

/-- Truthiness of an optional string, as Python evaluates `if s:`:
`None` and the empty string are falsy, everything else truthy. -/
def pyTruthy : Option String → Bool
  | none => false
  | some s => s ≠ ""

/-- Case-sensitive dictionary lookup, as `dict.get(key)` on a plain Python
dict (the `AuthRequestContext.headers` mapping): first binding wins,
`None` when the key is absent. -/
def getHdr (hs : List (String × String)) (k : String) : Option String :=
  (hs.find? (fun p => p.1 = k)).map Prod.snd

/-- ASCII lowering of a character code: header names are ASCII. -/
def lowerNat (n : Nat) : Nat := if 65 ≤ n ∧ n ≤ 90 then n + 32 else n

/-- A header name lowered to its comparison key. -/
def lowerKey (s : String) : List Nat := s.data.map (fun c => lowerNat c.toNat)

/-- Case-insensitive header lookup, as `request.headers.get(key)` on a
Starlette/FastAPI `Request`, whose header multidict compares keys
case-insensitively. -/
def getHeaderCI (hs : List (String × String)) (k : String) : Option String :=
  (hs.find? (fun p => lowerKey p.1 = lowerKey k)).map Prod.snd

/-- Python `dict.update`: each binding of `u` overwrites an existing binding
with the same key in place, otherwise is appended. -/
def dictUpdate (d u : List (String × String)) : List (String × String) :=
  u.foldl
    (fun acc kv =>
      if acc.any (fun p => p.1 = kv.1) then
        acc.map (fun p => if p.1 = kv.1 then kv else p)
      else acc ++ [kv])
    d

/-! ## backend/api/llamastack.py -/

/-- State of the mounted service-account credential file at
`/var/run/secrets/kubernetes.io/serviceaccount/token`. -/
inductive FileState where
  | present (content : String)
  | missing
  | unreadable (err : String)
deriving DecidableEq, Repr

/-- Embedding of `get_sa_token()`: read the mounted file and return its
content; on `FileNotFoundError` or any other exception, print and fall off
the end of the function, returning Python `None`.  No exception escapes. -/
def get_sa_token : FileState → Option String
  | .present content => some content
  | .missing => none
  | .unreadable _ => none

/-- Embedding of `token_to_auth_header(token: str)` on an actual string:
add the `Bearer ` scheme unless the token already carries it, and return
the singleton `Authorization` dict. -/
def token_to_auth_header (token : String) : List (String × String) :=
  if ¬ token.startsWith "Bearer " then
    [("Authorization", "Bearer " ++ token)]
  else
    [("Authorization", token)]

/-- Dynamic-call embedding of `token_to_auth_header` as its callers invoke it
on the result of `get_sa_token()`: when that result is Python `None`, the
expression `token.startswith("Bearer ")` raises
`AttributeError: 'NoneType' object has no attribute 'startswith'`. -/
def token_to_auth_header_dyn : Option String → Except String (List (String × String))
  | none => .error "AttributeError"
  | some t => .ok (token_to_auth_header t)

/-- The request-context record of an `AuthRequest`
(`llama_stack.distribution.server.auth_providers.AuthRequestContext`):
path, a headers mapping, and query params. -/
structure AuthRequestContext where
  path : String
  headers : List (String × String)
  params : List (String × String)
deriving DecidableEq, Repr

/-- One header-with-fallback block of `get_user_headers_from_request`:
`h = headers.get(canonical); if not h: h = headers.get(lower)` — the
canonical casing is preferred, and a falsy read (absent key or empty
string) falls back to the lowercase variant. -/
def pickHeader (hs : List (String × String)) (canonical lower : String) : Option String :=
  let h0 := getHdr hs canonical
  if pyTruthy h0 then h0 else getHdr hs lower

/-- Embedding of `get_user_headers_from_request(request)`: starting from an
empty dict, read `X-Forwarded-User` falling back to `x-forwarded-user` when
the first read is falsy, and store the result under the canonical key when
truthy; then the same for `X-Forwarded-Email` / `x-forwarded-email`.  A
`None` request yields the empty dict.  Lookups here use the plain-dict
(case-sensitive) semantics of `AuthRequestContext.headers`, the argument
`validate.py` passes. -/
def get_user_headers_from_request : Option AuthRequestContext → List (String × String)
  | none => []
  | some r =>
    let user := pickHeader r.headers "X-Forwarded-User" "x-forwarded-user"
    let email := pickHeader r.headers "X-Forwarded-Email" "x-forwarded-email"
    (if pyTruthy user then [("X-Forwarded-User", user.getD "")] else []) ++
      (if pyTruthy email then [("X-Forwarded-Email", email.getD "")] else [])

/-- Embedding of the header-building phase of `get_client_from_request`:
`token = get_sa_token(); headers = token_to_auth_header(token);
headers.update(get_user_headers_from_request(request))`.  The outcome is the
final headers dict, or the name of the Python exception that escapes. -/
def get_client_from_request_headers (fs : FileState)
    (request : Option AuthRequestContext) : Except String (List (String × String)) := do
  let token := get_sa_token fs
  let headers ← token_to_auth_header_dyn token
  let user_headers := get_user_headers_from_request request
  return dictUpdate headers user_headers

/-- Embedding of the header-building phase of `get_sync_client`:
`token = get_sa_token(); headers = token_to_auth_header(token)` followed by
overwriting `X-Forwarded-User` with the `ADMIN_USERNAME` environment value. -/
def get_sync_client_headers (fs : FileState) (adminUsername : String) :
    Except String (List (String × String)) := do
  let token := get_sa_token fs
  let headers ← token_to_auth_header_dyn token
  return dictUpdate headers [("X-Forwarded-User", adminUsername)]

/-! ## backend/routes/validate.py -/

/-- The slice of an `httpx.Response` that `validate` inspects. -/
structure HttpResponse where
  status_code : Nat
deriving DecidableEq, Repr

/-- Outcome of the `httpx` GET inside `make_authorized_request`: a response,
a raised `httpx.TimeoutException`, a raised `ValueError`, or any other
exception (with its description). -/
inductive HttpAttempt where
  | success (r : HttpResponse)
  | timeout
  | valueErrorRaised (msg : String)
  | otherFailure (desc : String)
deriving DecidableEq, Repr

/-- An exception escaping `make_authorized_request` or `validate`:
an `httpx.TimeoutException`, or a `ValueError` with its message. -/
inductive AuthErr where
  | timeoutExc
  | valueError (msg : String)
deriving DecidableEq, Repr

/-- Embedding of `make_authorized_request`'s try/except around the GET:
`except httpx.TimeoutException: raise` and `except ValueError: raise`
re-raise unchanged; `except Exception as e:` wraps anything else into
`ValueError("Authentication service error")`. -/
def make_authorized_request : HttpAttempt → Except AuthErr HttpResponse
  | .success r => .ok r
  | .timeout => .error .timeoutExc
  | .valueErrorRaised msg => .error (.valueError msg)
  | .otherFailure _ => .error (.valueError "Authentication service error")

/-- Embedding of the header-building lines of `make_authorized_request`:
`headers = token_to_auth_header(auth_request.api_key)` (the `api_key` field
is a genuine string here) updated with
`get_user_headers_from_request(auth_request.request)`. -/
def make_authorized_request_headers (api_key : String)
    (request : Option AuthRequestContext) : List (String × String) :=
  dictUpdate (token_to_auth_header api_key) (get_user_headers_from_request request)

/-- A local user record as `get_user_from_headers` returns it: the fields
`validate` reads. -/
structure UserRecord where
  username : String
  role : String
deriving DecidableEq, Repr

/-- The `AuthResponse` model: principal, attribute mapping, message. -/
structure AuthResponse where
  principal : String
  attributes : List (String × List String)
  message : String
deriving DecidableEq, Repr

/-- How a call of the `validate` endpoint ends: a returned `AuthResponse`
decision, a raised `HTTPException(status, detail)`, a propagated
`AuthErr` from `make_authorized_request`, or an uncaught Python error
(by exception-class name). -/
inductive ValidateOutcome where
  | decision (d : AuthResponse)
  | httpError (status : Nat) (detail : String)
  | exc (e : AuthErr)
  | pyError (name : String)
deriving DecidableEq, Repr

/-- The `status.HTTP_403_FORBIDDEN` constant. -/
def HTTP_403_FORBIDDEN : Nat := 403

/-- Embedding of the body of `validate` after `make_authorized_request`
returned, over the `httpx.Response | None` annotation of that function.
`if response is None or response.status_code != 200:` takes its branch on
`None`, but the detail f-string then evaluates `response.status_code` and
raises `AttributeError` before the `HTTPException` is built.  Otherwise:
non-200 yields the 403 with the received status embedded; with a 200
response, a missing user record yields the 403 `"User not found"`, and a
found record yields the success decision. -/
def validate_core (response : Option HttpResponse) (user : Option UserRecord) :
    ValidateOutcome :=
  match response with
  | none => .pyError "AttributeError"
  | some r =>
    if r.status_code ≠ 200 then
      .httpError HTTP_403_FORBIDDEN ("Authentication failed: " ++ toString r.status_code)
    else
      match user with
      | none => .httpError HTTP_403_FORBIDDEN "User not found"
      | some u =>
        .decision { principal := u.username
                    attributes := [("roles", [u.role])]
                    message := "Authentication successful" }

/-- Embedding of the whole `validate` endpoint: run
`make_authorized_request` (an escaping exception propagates out of the
handler), then dispatch on the response and the user-record lookup. -/
def validate (attempt : HttpAttempt) (user : Option UserRecord) : ValidateOutcome :=
  match make_authorized_request attempt with
  | .error e => .exc e
  | .ok r => validate_core (some r) user

/-- The `User(principal, attributes)` value `validate_test` returns. -/
structure LSUser where
  principal : String
  attributes : List (String × List String)
deriving DecidableEq, Repr

/-- Outcome of the `httpx` POST inside `validate_test`: a response with its
status code and the result of parsing its JSON body into an
`AuthResponse` (`none` when `response.json()` or `AuthResponse(**data)`
raises), or a raised `httpx.TimeoutException`, or any other exception. -/
inductive TestAttempt where
  | response (status : Nat) (parsed : Option AuthResponse)
  | timeout
  | otherFailure (desc : String)
deriving DecidableEq, Repr

/-- How `validate_test` ends: a returned `User`, a propagated
`httpx.TimeoutException`, or a raised `ValueError` with its message. -/
inductive TestOutcome where
  | user (u : LSUser)
  | timeoutExc
  | valueError (msg : String)
deriving DecidableEq, Repr

/-- Embedding of the try/except cascade of `validate_test`: a non-200 status
raises `ValueError(f"Authentication failed: {status}")`; a body that fails
to parse raises `ValueError("Invalid authentication response format")` from
the inner handler; `except httpx.TimeoutException: raise` propagates the
timeout unwrapped; `except ValueError: raise` preserves the two messages
above; `except Exception:` wraps anything else into
`ValueError("Authentication service error")`. -/
def validate_test_core : TestAttempt → TestOutcome
  | .timeout => .timeoutExc
  | .otherFailure _ => .valueError "Authentication service error"
  | .response status parsed =>
    if status ≠ 200 then
      .valueError ("Authentication failed: " ++ toString status)
    else
      match parsed with
      | none => .valueError "Invalid authentication response format"
      | some ar => .user { principal := ar.principal, attributes := ar.attributes }

/-- Embedding of the headers dict literal `validate_test` places inside the
`AuthRequestContext` it builds: both keys are always written, each bound to
whatever `request.headers.get(...)` returned — including Python `None`
when the inbound header is absent.  Lookups use the case-insensitive
Starlette semantics of `request.headers`. -/
def validate_test_headers (inbound : List (String × String)) :
    List (String × Option String) :=
  [("x-forwarded-user", getHeaderCI inbound "X-Forwarded-User"),
   ("x-forwarded-email", getHeaderCI inbound "X-Forwarded-Email")]

/-! ## backend/main.py -/

/-- Outcome of one `core_v1.read_namespaced_endpoints` call inside the
polling loop of `wait_for_service_ready`: an endpoints object carrying its
subsets (each subset carrying its address list — a `None` subsets or
addresses field and an empty list are both falsy under the `if` tests, so
both appear as `[]` here), or a raised `kubernetes.client.ApiException`
with its HTTP status. -/
inductive PollOutcome where
  | endpointsFound (subsets : List (List String))
  | apiException (status : Nat)
deriving DecidableEq, Repr

/-- One loop body of `wait_for_service_ready`: `if endpoints.subsets:` then
`for subset in endpoints.subsets: if subset.addresses: return True`.
An `ApiException` is caught (a non-404 status only changes what is
printed) and the loop continues. -/
def pollReady : PollOutcome → Bool
  | .endpointsFound subsets =>
    if subsets.isEmpty then false else subsets.any (fun addrs => ¬ addrs.isEmpty)
  | .apiException _ => false

/-- Embedding of `wait_for_service_ready`'s `while time.time() - start_time <
timeout_seconds:` loop over the finite sequence of poll outcomes the
cluster produces: the k-th element of `polls` is the outcome of the k-th
`read_namespaced_endpoints` call; each iteration first checks the elapsed
time against the timeout, then polls, returns `True` on a ready subset, and
otherwise sleeps `interval` seconds before the next check. -/
def wait_for_service_ready_from (timeout interval : Nat) :
    Nat → List PollOutcome → Bool
  | _, [] => false
  | elapsed, p :: ps =>
    if elapsed < timeout then
      if pollReady p then true
      else wait_for_service_ready_from timeout interval (elapsed + interval) ps
    else false

/-- `wait_for_service_ready` started at elapsed time 0. -/
def wait_for_service_ready (timeout interval : Nat) (polls : List PollOutcome) : Bool :=
  wait_for_service_ready_from timeout interval 0 polls

/-- The three startup sync routines, in the order `after_serving_starts`
invokes them. -/
inductive SyncStep where
  | syncMcpServers
  | syncModelServers
  | syncKnowledgeBases
deriving DecidableEq, Repr

/-- The log label `after_serving_starts` uses for a failed routine. -/
def syncFailLabel : SyncStep → String
  | .syncMcpServers => "Failed to sync MCP servers on startup: "
  | .syncModelServers => "Failed to sync model servers on startup: "
  | .syncKnowledgeBases => "Failed to sync knowledge bases on startup: "

/-- Observable trace of the startup orchestrator: which sync routines were
invoked, in order, and which error messages were logged. -/
structure StartupTrace where
  executed : List SyncStep
  logs : List String
deriving DecidableEq, Repr

/-- One `try: await sync_x(session) except Exception as e: logger.error(...)`
block of `after_serving_starts`: the routine is invoked; when it raises,
the exception is caught and logged, and control falls through to the next
block either way. -/
def runSyncStep (outcome : SyncStep → Except String Unit)
    (t : StartupTrace) (s : SyncStep) : StartupTrace :=
  match outcome s with
  | .ok _ => { t with executed := t.executed ++ [s] }
  | .error e =>
    { executed := t.executed ++ [s]
      logs := t.logs ++ [syncFailLabel s ++ e] }

/-- Embedding of `after_serving_starts` from the readiness check on: when
`wait_for_service_ready` returned `True`, run the three guarded sync blocks
in source order — MCP servers, then model servers, then knowledge bases;
when it returned `False`, only print the timeout message and run nothing. -/
def after_serving_starts (ready : Bool)
    (outcome : SyncStep → Except String Unit) : StartupTrace :=
  if ready then
    let t1 := runSyncStep outcome ⟨[], []⟩ .syncMcpServers
    let t2 := runSyncStep outcome t1 .syncModelServers
    runSyncStep outcome t2 .syncKnowledgeBases
  else
    ⟨[], []⟩

/-! ## backend/agents.py -/

/-- The attribute state an `ExistingAgent.__init__` call leaves on the new
object.  `agent_id` is an `Option`: `none` means the attribute was never
assigned (reading it on the object raises `AttributeError`).
`remoteInitCalled` records whether the parent's `initialize()` remote
creation ran. -/
structure ExistingAgentState where
  model : Option String
  instructions : Option String
  tools : List String
  sessions : List String
  agent_id : Option String
  remoteInitCalled : Bool
deriving DecidableEq, Repr

/-- The attribute state an `ExistingReActAgent.__init__` call leaves on the
new object. -/
structure ExistingReActAgentState where
  model : Option String
  tools : List String
  sessions : List String
  agent_id : Option String
  remoteInitCalled : Bool
deriving DecidableEq, Repr

/-- Embedding of `ExistingAgent.__init__(client, agent_id, model=None, ...)`:
it assigns `self.model`, `self.instructions`, `self.tools = tools or []`,
`self.sessions = []`, never calls the parent `__init__`/`initialize`, and —
the line `self.agent_id = agent_id` being commented out in the source —
never assigns `self.agent_id` at all: the `agent_id` argument is dropped. -/
def ExistingAgent_init (agent_id : String) (model : Option String)
    (instructions : Option String) (tools : Option (List String)) :
    ExistingAgentState :=
  { model := model
    instructions := instructions
    tools := tools.getD []
    sessions := []
    agent_id := none
    remoteInitCalled := false }

/-- Embedding of `ExistingReActAgent.__init__(client, agent_id, ...)`: same
attribute assignments, no parent `__init__`/`initialize` call, and here
the final line `self.agent_id = agent_id` IS present, so the handle is
bound to the supplied identifier. -/
def ExistingReActAgent_init (agent_id : String) (model : Option String)
    (tools : Option (List String)) : ExistingReActAgentState :=
  { model := model
    tools := tools.getD []
    sessions := []
    agent_id := some agent_id
    remoteInitCalled := false }

/-! ## Theorems -/

/-- C1: for every auth request whose token-introspection call returns HTTP
200 and for which a matching local user record exists, `validate` returns a
Decision whose principal is that user's username and whose
`attributes.roles` is the one-element list holding the user's role. -/
theorem c1_validate_success (r : HttpResponse) (u : UserRecord)
    (h : r.status_code = 200) :
    validate (.success r) (some u) =
      .decision { principal := u.username
                  attributes := [("roles", [u.role])]
                  message := "Authentication successful" } := by
  simp [validate, make_authorized_request, validate_core, h]

/-- C1 witness: introspection 200 and user `alice`/`admin` yield the
decision `{principal := alice, roles := [admin]}`. -/
theorem c1_validate_success_witness :
    validate (.success ⟨200⟩) (some ⟨"alice", "admin"⟩) =
      .decision { principal := "alice"
                  attributes := [("roles", ["admin"])]
                  message := "Authentication successful" } :=
  c1_validate_success ⟨200⟩ ⟨"alice", "admin"⟩ rfl

/-- C2: `validate` returns a Decision only when introspection succeeded with
status 200 and a user record was found; a non-200 response is rejected with
a 403 embedding the received status; a 200 response without a matching user
is rejected with the distinct 403 detail `"User not found"`; the two
rejection messages never coincide; and no run of `validate` reaches the
uncaught-Python-error outcome (the response is never absent: every failure
of `make_authorized_request` raises instead of returning `None`). -/
theorem c2_decision_gating :
    (∀ (attempt : HttpAttempt) (user : Option UserRecord) (d : AuthResponse),
        validate attempt user = .decision d →
        ((∃ r, attempt = .success r ∧ r.status_code = 200) ∧ ∃ u, user = some u)) ∧
    (∀ (r : HttpResponse) (user : Option UserRecord), r.status_code ≠ 200 →
        validate (.success r) user =
          .httpError HTTP_403_FORBIDDEN
            ("Authentication failed: " ++ toString r.status_code)) ∧
    (∀ r : HttpResponse, r.status_code = 200 →
        validate (.success r) none = .httpError HTTP_403_FORBIDDEN "User not found") ∧
    (∀ s : String, "Authentication failed: " ++ s ≠ "User not found") ∧
    (∀ (attempt : HttpAttempt) (user : Option UserRecord) (name : String),
        validate attempt user ≠ .pyError name) := by
  refine ⟨?_, ?_, ?_, ?_, ?_⟩
  · intro attempt user d h
    cases attempt with
    | success r =>
      by_cases hs : r.status_code = 200
      · refine ⟨⟨r, rfl, hs⟩, ?_⟩
        cases user with
        | none => simp [validate, make_authorized_request, validate_core, hs] at h
        | some u => exact ⟨u, rfl⟩
      · simp [validate, make_authorized_request, validate_core, hs] at h
    | timeout => simp [validate, make_authorized_request] at h
    | valueErrorRaised msg => simp [validate, make_authorized_request] at h
    | otherFailure desc => simp [validate, make_authorized_request] at h
  · intro r user hs
    simp [validate, make_authorized_request, validate_core, hs]
  · intro r hs
    simp [validate, make_authorized_request, validate_core, hs]
  · intro s h
    have h2 := congrArg String.length h
    rw [String.length_append] at h2
    have e1 : ("Authentication failed: " : String).length = 23 := rfl
    have e2 : ("User not found" : String).length = 14 := rfl
    rw [e1, e2] at h2
    omega
  · intro attempt user name h
    cases attempt with
    | success r =>
      by_cases hs : r.status_code = 200
      · cases user with
        | none => simp [validate, make_authorized_request, validate_core, hs] at h
        | some u => simp [validate, make_authorized_request, validate_core, hs] at h
      · simp [validate, make_authorized_request, validate_core, hs] at h
    | timeout => simp [validate, make_authorized_request] at h
    | valueErrorRaised msg => simp [validate, make_authorized_request] at h
    | otherFailure desc => simp [validate, make_authorized_request] at h

/-- C2 witness: introspection status 401 is rejected with the 403 detail
`"Authentication failed: 401"`, and a 200 with no matching user with the
403 detail `"User not found"`. -/
theorem c2_decision_gating_witness :
    validate (.success ⟨401⟩) none =
      .httpError HTTP_403_FORBIDDEN ("Authentication failed: " ++ toString (401 : Nat)) ∧
    validate (.success ⟨200⟩) none = .httpError HTTP_403_FORBIDDEN "User not found" :=
  ⟨c2_decision_gating.2.1 ⟨401⟩ none (by decide),
   c2_decision_gating.2.2.1 ⟨200⟩ rfl⟩

/-- C9: the three failure causes of the peer-authentication self-test (and of
the outbound introspection call) surface as three distinct error kinds with
distinct messages: a timeout propagates unwrapped as the timeout kind, an
unparseable 200 body raises `"Invalid authentication response format"`, any
other failure is wrapped into `"Authentication service error"`, and the
three outcomes are pairwise different. -/
theorem c9_distinct_failure_kinds :
    validate_test_core .timeout = .timeoutExc ∧
    validate_test_core (.response 200 none) =
      .valueError "Invalid authentication response format" ∧
    (∀ desc, validate_test_core (.otherFailure desc) =
      .valueError "Authentication service error") ∧
    make_authorized_request .timeout = .error .timeoutExc ∧
    (∀ desc, make_authorized_request (.otherFailure desc) =
      .error (.valueError "Authentication service error")) ∧
    TestOutcome.timeoutExc ≠ .valueError "Invalid authentication response format" ∧
    TestOutcome.timeoutExc ≠ .valueError "Authentication service error" ∧
    ("Invalid authentication response format" : String) ≠ "Authentication service error" := by
  refine ⟨rfl, rfl, fun _ => rfl, rfl, fun _ => rfl, by decide, by decide, by decide⟩

/-- C8: constructing `ExistingReActAgent` with a caller-supplied identifier
binds the handle to that identifier without any remote-creation call;
constructing `ExistingAgent`, however, drops the supplied identifier — the
assignment `self.agent_id = agent_id` is commented out in the source, so
the attribute is never set, contradicting the class's own docstring and
the comment directly above the dead line. -/
theorem c8_agent_id_binding :
    (ExistingAgent_init "agent-123" none none none).agent_id = none ∧
    (ExistingAgent_init "agent-123" none none none).remoteInitCalled = false ∧
    (ExistingReActAgent_init "agent-123" none none).agent_id = some "agent-123" ∧
    (ExistingReActAgent_init "agent-123" none none).remoteInitCalled = false :=
  ⟨rfl, rfl, rfl, rfl⟩

/-- C3: `get_sa_token` is total — it returns the file content when present
and `none` on a missing or unreadable file, raising nothing — but the
callers that build an Authorization header from its result do NOT complete
when the token is absent: `token_to_auth_header(None)` evaluates
`None.startswith` and raises `AttributeError`, which escapes
`get_client_from_request` and `get_sync_client`. -/
theorem c3_absent_token_crashes_callers :
    (∀ c, get_sa_token (.present c) = some c) ∧
    get_sa_token .missing = none ∧
    (∀ e, get_sa_token (.unreadable e) = none) ∧
    (∀ t, token_to_auth_header_dyn (some t) = .ok (token_to_auth_header t)) ∧
    token_to_auth_header_dyn (get_sa_token .missing) = .error "AttributeError" ∧
    get_client_from_request_headers .missing none = .error "AttributeError" ∧
    get_sync_client_headers .missing "admin" = .error "AttributeError" := by
  refine ⟨fun _ => rfl, rfl, fun _ => rfl, fun _ => rfl, rfl, rfl, rfl⟩

/-- Helper: the readiness loop started at any elapsed time returns `True`
exactly when some poll that still happens before the timeout is ready. -/
theorem wait_from_true_iff (timeout interval : Nat) :
    ∀ (polls : List PollOutcome) (elapsed : Nat),
      wait_for_service_ready_from timeout interval elapsed polls = true ↔
        ∃ k p, polls[k]? = some p ∧ elapsed + k * interval < timeout ∧
          pollReady p = true := by
  intro polls
  induction polls with
  | nil =>
    intro elapsed
    simp [wait_for_service_ready_from]
  | cons p ps ih =>
    intro elapsed
    by_cases h1 : elapsed < timeout
    · by_cases h2 : pollReady p = true
      · constructor
        · intro _
          exact ⟨0, p, List.getElem?_cons_zero, by simpa using h1, h2⟩
        · intro _
          simp [wait_for_service_ready_from, h1, h2]
      · have hstep : wait_for_service_ready_from timeout interval elapsed (p :: ps) =
            wait_for_service_ready_from timeout interval (elapsed + interval) ps := by
          simp [wait_for_service_ready_from, h1, h2]
        rw [hstep, ih (elapsed + interval)]
        constructor
        · rintro ⟨k, q, hget, hlt, hready⟩
          refine ⟨k + 1, q, by simpa using hget, ?_, hready⟩
          rw [Nat.succ_mul]
          omega
        · rintro ⟨k, q, hget, hlt, hready⟩
          cases k with
          | zero =>
            rw [List.getElem?_cons_zero] at hget
            cases hget
            exact absurd hready h2
          | succ k =>
            rw [List.getElem?_cons_succ] at hget
            rw [Nat.succ_mul] at hlt
            exact ⟨k, q, hget, by omega, hready⟩
    · constructor
      · intro hfalse
        rw [wait_for_service_ready_from] at hfalse
        simp [h1] at hfalse
      · rintro ⟨k, q, hget, hlt, hready⟩
        exact absurd hlt (by omega)

/-- C4: the readiness gate returns `True` iff some poll happening before the
timeout elapses observes an endpoints object with a subset holding at least
one address; an API exception of any status (404 not-found included) is
never ready and merely lets the loop advance to the next poll; when no
in-time poll is ready the gate returns `False`. -/
theorem c4_readiness_gate (timeout interval : Nat) (polls : List PollOutcome) :
    (wait_for_service_ready timeout interval polls = true ↔
      ∃ k p, polls[k]? = some p ∧ k * interval < timeout ∧ pollReady p = true) ∧
    (∀ status : Nat, pollReady (.apiException status) = false) ∧
    (∀ (status : Nat) (rest : List PollOutcome) (elapsed : Nat), elapsed < timeout →
      wait_for_service_ready_from timeout interval elapsed
          (.apiException status :: rest) =
        wait_for_service_ready_from timeout interval (elapsed + interval) rest) := by
  refine ⟨?_, fun _ => rfl, ?_⟩
  · rw [wait_for_service_ready, wait_from_true_iff]
    simp
  · intro status rest elapsed h
    simp [wait_for_service_ready_from, h, pollReady]

/-- C4 witness: with timeout 10 and interval 1, two API errors (a 404 and a
500) followed by an endpoints object whose second subset has an address
yield `True`, and an api-error poll at elapsed time 0 steps the loop to
elapsed time 1. -/
theorem c4_readiness_gate_witness :
    wait_for_service_ready 10 1
      [.apiException 404, .apiException 500, .endpointsFound [[], ["10.0.0.1"]]] = true ∧
    wait_for_service_ready_from 10 1 0 [.apiException 404] =
      wait_for_service_ready_from 10 1 1 [] :=
  ⟨(c4_readiness_gate 10 1
        [.apiException 404, .apiException 500,
         .endpointsFound [[], ["10.0.0.1"]]]).1.mpr
      ⟨2, .endpointsFound [[], ["10.0.0.1"]], rfl, by decide, rfl⟩,
   (c4_readiness_gate 10 1 []).2.2 404 [] 0 (by decide)⟩

/-- C5: the startup orchestrator invokes the three sync routines exactly when
the readiness gate reported ready, in the order MCP servers, model
servers, knowledge bases — whatever each routine's outcome is, a raised
exception included, so a model-server failure never stops the
knowledge-base sync — and invokes none of them on a gate timeout. -/
theorem c5_startup_orchestrator (ready : Bool)
    (outcome : SyncStep → Except String Unit) :
    (after_serving_starts ready outcome).executed =
      (if ready then [.syncMcpServers, .syncModelServers, .syncKnowledgeBases]
       else []) := by
  cases ready with
  | false => rfl
  | true =>
    simp only [after_serving_starts, if_true]
    cases h1 : outcome .syncMcpServers <;> cases h2 : outcome .syncModelServers <;>
      cases h3 : outcome .syncKnowledgeBases <;>
        simp [runSyncStep, h1, h2, h3]

/-- Helper: when the canonical read is falsy the fallback read is used. -/
theorem pickHeader_fallback (hs : List (String × String)) (c l : String)
    (h : pyTruthy (getHdr hs c) = false) : pickHeader hs c l = getHdr hs l := by
  simp [pickHeader, h]

/-- Helper: when the canonical read is truthy it is kept. -/
theorem pickHeader_canonical (hs : List (String × String)) (c l : String)
    (h : pyTruthy (getHdr hs c) = true) : pickHeader hs c l = getHdr hs c := by
  simp [pickHeader, h]

/-- Helper: a truthy picked header means one of the two inbound reads was
truthy. -/
theorem pickHeader_truthy_source (hs : List (String × String)) (c l : String)
    (h : pyTruthy (pickHeader hs c l) = true) :
    pyTruthy (getHdr hs c) = true ∨ pyTruthy (getHdr hs l) = true := by
  by_cases h0 : pyTruthy (getHdr hs c) = true
  · exact Or.inl h0
  · rw [pickHeader_fallback hs c l (Bool.not_eq_true _ ▸ h0)] at h
    exact Or.inr h

/-- C6: when only the lowercase forwarded-user header is present (and no email
header), the extracted header set is exactly the canonical-cased user key
bound to that value; a truthy canonical user header always wins and heads
the result; and any emitted key has a truthy corresponding inbound header
(canonical or lowercase) — keys are never fabricated. -/
theorem c6_forwarded_identity_extraction :
    (∀ (ctx : AuthRequestContext) (v : String),
        getHdr ctx.headers "X-Forwarded-User" = none →
        getHdr ctx.headers "x-forwarded-user" = some v → v ≠ "" →
        getHdr ctx.headers "X-Forwarded-Email" = none →
        getHdr ctx.headers "x-forwarded-email" = none →
        get_user_headers_from_request (some ctx) = [("X-Forwarded-User", v)]) ∧
    (∀ (ctx : AuthRequestContext) (v : String),
        getHdr ctx.headers "X-Forwarded-User" = some v → v ≠ "" →
        ∃ rest, get_user_headers_from_request (some ctx) =
          ("X-Forwarded-User", v) :: rest) ∧
    (∀ (ctx : AuthRequestContext) (kv : String × String),
        kv ∈ get_user_headers_from_request (some ctx) →
        (kv.1 = "X-Forwarded-User" ∧
          (pyTruthy (getHdr ctx.headers "X-Forwarded-User") = true ∨
           pyTruthy (getHdr ctx.headers "x-forwarded-user") = true)) ∨
        (kv.1 = "X-Forwarded-Email" ∧
          (pyTruthy (getHdr ctx.headers "X-Forwarded-Email") = true ∨
           pyTruthy (getHdr ctx.headers "x-forwarded-email") = true))) := by
  refine ⟨?_, ?_, ?_⟩
  · intro ctx v h1 h2 hv h3 h4
    have hu : pickHeader ctx.headers "X-Forwarded-User" "x-forwarded-user" = some v := by
      rw [pickHeader_fallback _ _ _ (by rw [h1]; rfl), h2]
    have hu2 : pyTruthy (pickHeader ctx.headers "X-Forwarded-User" "x-forwarded-user")
        = true := by
      rw [hu]; simp [pyTruthy, hv]
    have hv2 : pyTruthy (some v) = true := by simp [pyTruthy, hv]
    have he2 : pyTruthy (pickHeader ctx.headers "X-Forwarded-Email" "x-forwarded-email")
        = false := by
      rw [pickHeader_fallback _ _ _ (by rw [h3]; rfl), h4]; rfl
    simp [get_user_headers_from_request, hu, hv2, he2]
  · intro ctx v h1 hv
    have hu : pickHeader ctx.headers "X-Forwarded-User" "x-forwarded-user" = some v := by
      rw [pickHeader_canonical _ _ _ (by rw [h1]; simp [pyTruthy, hv]), h1]
    have hu2 : pyTruthy (pickHeader ctx.headers "X-Forwarded-User" "x-forwarded-user")
        = true := by
      rw [hu]; simp [pyTruthy, hv]
    have hv2 : pyTruthy (some v) = true := by simp [pyTruthy, hv]
    by_cases he : pyTruthy (pickHeader ctx.headers "X-Forwarded-Email" "x-forwarded-email")
        = true
    · refine ⟨[("X-Forwarded-Email",
        (pickHeader ctx.headers "X-Forwarded-Email" "x-forwarded-email").getD "")], ?_⟩
      simp [get_user_headers_from_request, hu, hv2, he]
    · refine ⟨[], ?_⟩
      simp [get_user_headers_from_request, hu, hv2, Bool.not_eq_true _ ▸ he]
  · intro ctx kv hmem
    simp only [get_user_headers_from_request] at hmem
    rcases List.mem_append.1 hmem with h | h
    · by_cases hu :
        pyTruthy (pickHeader ctx.headers "X-Forwarded-User" "x-forwarded-user") = true
      · rw [if_pos hu] at h
        rcases List.mem_singleton.1 h with rfl
        exact Or.inl ⟨rfl, pickHeader_truthy_source _ _ _ hu⟩
      · rw [if_neg hu] at h
        cases h
    · by_cases he :
        pyTruthy (pickHeader ctx.headers "X-Forwarded-Email" "x-forwarded-email") = true
      · rw [if_pos he] at h
        rcases List.mem_singleton.1 h with rfl
        exact Or.inr ⟨rfl, pickHeader_truthy_source _ _ _ he⟩
      · rw [if_neg he] at h
        cases h

/-- C6 witness: a request carrying only `x-forwarded-user: bob` extracts to
exactly `X-Forwarded-User: bob`. -/
theorem c6_forwarded_identity_extraction_witness :
    get_user_headers_from_request (some ⟨"/", [("x-forwarded-user", "bob")], []⟩) =
      [("X-Forwarded-User", "bob")] :=
  c6_forwarded_identity_extraction.1 ⟨"/", [("x-forwarded-user", "bob")], []⟩ "bob"
    rfl rfl (by decide) rfl rfl

/-- C10: `get_user_headers_from_request` is total on an absent request,
returning the empty dict for `None`; an empty-string canonical user header
is falsy and triggers the lowercase fallback, whose truthy value is then
emitted under the canonical key; and when the fallback is also falsy
(absent or empty) the key is omitted entirely. -/
theorem c10_none_request_and_empty_values :
    get_user_headers_from_request none = [] ∧
    (∀ (ctx : AuthRequestContext) (v : String),
        getHdr ctx.headers "X-Forwarded-User" = some "" →
        getHdr ctx.headers "x-forwarded-user" = some v → v ≠ "" →
        getHdr ctx.headers "X-Forwarded-Email" = none →
        getHdr ctx.headers "x-forwarded-email" = none →
        get_user_headers_from_request (some ctx) = [("X-Forwarded-User", v)]) ∧
    (∀ (ctx : AuthRequestContext) (o : Option String),
        getHdr ctx.headers "X-Forwarded-User" = some "" →
        getHdr ctx.headers "x-forwarded-user" = o → pyTruthy o = false →
        getHdr ctx.headers "X-Forwarded-Email" = none →
        getHdr ctx.headers "x-forwarded-email" = none →
        get_user_headers_from_request (some ctx) = []) := by
  refine ⟨rfl, ?_, ?_⟩
  · intro ctx v h1 h2 hv h3 h4
    have hu : pickHeader ctx.headers "X-Forwarded-User" "x-forwarded-user" = some v := by
      rw [pickHeader_fallback _ _ _ (by rw [h1]; rfl), h2]
    have hu2 : pyTruthy (pickHeader ctx.headers "X-Forwarded-User" "x-forwarded-user")
        = true := by
      rw [hu]; simp [pyTruthy, hv]
    have hv2 : pyTruthy (some v) = true := by simp [pyTruthy, hv]
    have he2 : pyTruthy (pickHeader ctx.headers "X-Forwarded-Email" "x-forwarded-email")
        = false := by
      rw [pickHeader_fallback _ _ _ (by rw [h3]; rfl), h4]; rfl
    simp [get_user_headers_from_request, hu, hv2, he2]
  · intro ctx o h1 h2 ho h3 h4
    have hu2 : pyTruthy (pickHeader ctx.headers "X-Forwarded-User" "x-forwarded-user")
        = false := by
      rw [pickHeader_fallback _ _ _ (by rw [h1]; rfl), h2]
      exact ho
    have he2 : pyTruthy (pickHeader ctx.headers "X-Forwarded-Email" "x-forwarded-email")
        = false := by
      rw [pickHeader_fallback _ _ _ (by rw [h3]; rfl), h4]; rfl
    simp [get_user_headers_from_request, hu2, he2]

/-- C10 witness: an empty canonical user header with `x-forwarded-user: carol`
extracts to `X-Forwarded-User: carol`. -/
theorem c10_none_request_and_empty_values_witness :
    get_user_headers_from_request
        (some ⟨"/", [("X-Forwarded-User", ""), ("x-forwarded-user", "carol")], []⟩) =
      [("X-Forwarded-User", "carol")] :=
  c10_none_request_and_empty_values.2.1
    ⟨"/", [("X-Forwarded-User", ""), ("x-forwarded-user", "carol")], []⟩ "carol"
    rfl rfl (by decide) rfl rfl

/-- C7 counterexample: the headers mapping the peer-authentication self-test
places in its Auth Request is NOT restricted to the identity headers
present on the inbound request — for an inbound request with no identity
headers at all it still contains both keys, each bound to Python `None`. -/
theorem c7_counterexample_null_entries :
    validate_test_headers [] ≠ [] ∧
    ("x-forwarded-user", (none : Option String)) ∈ validate_test_headers [] ∧
    ("x-forwarded-email", (none : Option String)) ∈ validate_test_headers [] := by
  refine ⟨by decide, by decide, by decide⟩

/-- Helper: a non-`None` case-insensitive lookup traces back to an inbound
header whose lowered name matches the lowered lookup key. -/
theorem getHeaderCI_some_source (hs : List (String × String)) (k v : String)
    (h : getHeaderCI hs k = some v) :
    ∃ kv ∈ hs, lowerKey kv.1 = lowerKey k ∧ kv.2 = v := by
  rcases Option.map_eq_some'.1 h with ⟨kv, hfind, hsnd⟩
  have hpred := List.find?_some hfind
  simp only [decide_eq_true_eq] at hpred
  exact ⟨kv, List.mem_of_find?_eq_some hfind, hpred, hsnd⟩

/-- C7 amended: the self-test's Auth Request always carries exactly the two
identity keys `x-forwarded-user` and `x-forwarded-email`, in that order;
a key holds a non-null value only when a case-insensitive match for it was
present on the inbound request, and holds Python `None` otherwise —
absent headers are included as null entries, not omitted. -/
theorem c7_amended_always_both_keys (inbound : List (String × String)) :
    (validate_test_headers inbound).map Prod.fst =
      ["x-forwarded-user", "x-forwarded-email"] ∧
    (∀ v, ("x-forwarded-user", some v) ∈ validate_test_headers inbound →
      ∃ kv ∈ inbound, lowerKey kv.1 = lowerKey "x-forwarded-user" ∧ kv.2 = v) ∧
    (∀ v, ("x-forwarded-email", some v) ∈ validate_test_headers inbound →
      ∃ kv ∈ inbound, lowerKey kv.1 = lowerKey "x-forwarded-email" ∧ kv.2 = v) := by
  refine ⟨rfl, ?_, ?_⟩
  · intro v hmem
    have hget : getHeaderCI inbound "X-Forwarded-User" = some v := by
      rcases List.mem_cons.1 hmem with h | h
      · exact (congrArg Prod.snd h).symm
      · rcases List.mem_singleton.1 h with heq
        have hk : ("x-forwarded-user" : String) = "x-forwarded-email" :=
          congrArg Prod.fst heq
        exact absurd hk (by decide)
    rcases getHeaderCI_some_source inbound _ v hget with ⟨kv, hm, hl, hv⟩
    refine ⟨kv, hm, ?_, hv⟩
    rw [hl]
    decide
  · intro v hmem
    have hget : getHeaderCI inbound "X-Forwarded-Email" = some v := by
      rcases List.mem_cons.1 hmem with h | h
      · have hk : ("x-forwarded-email" : String) = "x-forwarded-user" :=
          congrArg Prod.fst h
        exact absurd hk (by decide)
      · rcases List.mem_singleton.1 h with heq
        exact (congrArg Prod.snd heq).symm
    rcases getHeaderCI_some_source inbound _ v hget with ⟨kv, hm, hl, hv⟩
    refine ⟨kv, hm, ?_, hv⟩
    rw [hl]
    decide

/-- C7 amended witness: with inbound header `X-Forwarded-User: bob`, the
self-test mapping's non-null user entry traces back to that header. -/
theorem c7_amended_always_both_keys_witness :
    ∃ kv ∈ [("X-Forwarded-User", "bob")],
      lowerKey kv.1 = lowerKey "x-forwarded-user" ∧ kv.2 = "bob" :=
  (c7_amended_always_both_keys [("X-Forwarded-User", "bob")]).2.1 "bob" (by decide)

end AVA
